import Mathlib

/-!
Verification of the WorkOS Time Intelligence engine
(`src/core/time_intelligence.py`).

Shallow embedding conventions:
* Timestamps (Python ISO-8601 strings / `datetime` values) are modelled as
  rationals counting seconds; `datetime.now(timezone.utc)` is an explicit
  `now : ℚ` argument, and the generated random ids are explicit `String`
  arguments.
* Python `float` arithmetic is modelled by exact rational arithmetic; all
  concrete inputs used below are chosen so that the float computation and the
  rational computation agree.  `math.sqrt` is an explicit function argument
  `sqrtQ : ℚ → ℚ` of the estimate operations.
* Python exceptions are modelled by `Option`: an operation that can raise
  returns `none` exactly on the raising paths.
* The JSON store is the `Store` structure (its `entries` and `breakdowns`
  lists); every operation is a pure function of the store.
-/

namespace WorkOS

/-- Python `int()` applied to a rational number: truncation toward zero. -/
def pyTrunc (q : ℚ) : ℤ := Int.tdiv q.num q.den

/-- Python 3 `round()` on a rational number: round half to even
(`f` is the floor of `q` and `r` the numerator of its fractional part). -/
def pyRound (q : ℚ) : ℤ :=
  let f := q.num / (q.den : ℤ)
  let r := q.num - f * (q.den : ℤ)
  if 2 * r < (q.den : ℤ) then f
  else if (q.den : ℤ) < 2 * r then f + 1
  else if f % 2 = 0 then f else f + 1

/-- On non-negative rationals Python `int()` is the floor. -/
theorem pyTrunc_eq_floor (q : ℚ) (hq : 0 ≤ q) : pyTrunc q = ⌊q⌋ := by
  rw [pyTrunc, Int.tdiv_eq_ediv (Rat.num_nonneg.2 hq) (by positivity), Rat.floor_def]

/-- `needle` occurs as a contiguous run inside `haystack` (lists of chars). -/
def listIsInfix (needle : List Char) : List Char → Bool
  | [] => needle.isEmpty
  | c :: rest => needle.isPrefixOf (c :: rest) || listIsInfix needle rest

/-- Python substring containment `needle in haystack`. -/
def strContains (haystack needle : String) : Bool :=
  listIsInfix needle.toList haystack.toList

/-- Python `str.lower()`, character-wise. -/
def pyLower (s : String) : String := String.mk (s.toList.map Char.toLower)

/-- A single-quote character as a string (used in explanation texts). -/
def squote : String := String.singleton (Char.ofNat 39)

/-- Render a rational like Python `f"{x:.1f}"` (one decimal, round half even). -/
def fmt1 (q : ℚ) : String :=
  let n : ℤ := pyRound (q * 10)
  let sign := if n < 0 then String.singleton (Char.ofNat 45) else ""
  let a := n.natAbs
  sign ++ toString (a / 10) ++ "." ++ toString (a % 10)

/-- `Distraction` record (`time_intelligence.py`, dataclass `Distraction`);
the ISO timestamp is modelled as a rational number of seconds. -/
structure Distraction where
  type : String
  duration_minutes : ℤ
  description : String
  timestamp : ℚ
deriving DecidableEq, Repr

/-- `TimeEntry` dataclass.  `start_time` is an `Option` because entries created
by `accept_breakdown` store `start_time = None` even though the Python type
annotation says `str`. -/
structure TimeEntry where
  id : String
  start_time : Option ℚ
  end_time : Option ℚ
  duration_minutes : Option ℤ
  work_description : String
  work_type : String
  knowledge_refs : List String
  people_refs : List String
  distractions : List Distraction
  completion_percentage : Option ℤ
  notes : String
deriving DecidableEq, Repr

/-- An entry as stored in the JSON document: the `TimeEntry` fields plus the
three extra keys (`breakdown_id`, `chunk_id`, `estimated_minutes`) that
`accept_breakdown` adds; `none` models an absent key. -/
structure StoredEntry extends TimeEntry where
  breakdown_id : Option String
  chunk_id : Option String
  estimated_minutes : Option ℚ
deriving DecidableEq, Repr

/-- `WorkChunk` dataclass. -/
structure WorkChunk where
  id : String
  description : String
  estimated_minutes : ℚ
  work_type : String
  knowledge_refs : List String
  dependencies : List String
deriving DecidableEq, Repr

/-- `WorkBreakdown` dataclass (`created_at` modelled as seconds). -/
structure WorkBreakdown where
  original_work : String
  estimated_total : ℚ
  chunks : List WorkChunk
  breakdown_id : String
  created_at : ℚ
  completed_chunks : List String
deriving DecidableEq, Repr

/-- The persisted JSON document: `{"entries": [...], "breakdowns": [...]}`. -/
structure Store where
  entries : List StoredEntry
  breakdowns : List WorkBreakdown
deriving DecidableEq, Repr

/-- `EstimateResult` dataclass. -/
structure EstimateResult where
  mean_minutes : ℚ
  variance : ℚ
  std_dev : ℚ
  min_estimate : ℚ
  max_estimate : ℚ
  confidence_range : ℚ × ℚ
  similar_work_count : ℕ
  similar_work_ids : List String
  explanation : String
deriving DecidableEq, Repr

/-- `EstimationAccuracy` dataclass; the deviation-pattern dictionaries are the
`DeviationPattern` structure below. -/
structure DeviationPattern where
  work_type : String
  deviation_type : String
  occurrence_count : ℕ
  average_error_percentage : ℚ
deriving DecidableEq, Repr

structure EstimationAccuracy where
  total_estimates : ℕ
  accurate_estimates : ℕ
  overestimates : ℕ
  underestimates : ℕ
  average_error_percentage : ℚ
  common_deviation_patterns : List DeviationPattern
deriving DecidableEq, Repr

/-! ## Time Entry Store operations -/

/-- The fresh entry created by `start_work`. -/
def startEntry (description work_type : String)
    (knowledge_refs people_refs : List String) (now : ℚ) (work_id : String) :
    StoredEntry :=
  { id := work_id, start_time := some now, end_time := none,
    duration_minutes := none, work_description := description,
    work_type := work_type, knowledge_refs := knowledge_refs,
    people_refs := people_refs, distractions := [],
    completion_percentage := none, notes := "",
    breakdown_id := none, chunk_id := none, estimated_minutes := none }

/-- `start_work`: appends a fresh entry with `start_time = now` and returns its
id.  The wall clock and the generated id are explicit arguments. -/
def start_work (s : Store) (description : String) (work_type : String)
    (knowledge_refs people_refs : List String) (now : ℚ) (work_id : String) :
    String × Store :=
  (work_id,
   { s with entries := s.entries ++
      [startEntry description work_type knowledge_refs people_refs now work_id] })

/-- The in-place update `end_work` performs on the matched entry dict. -/
def endUpdate (e : StoredEntry) (now st : ℚ) (completion_notes : String)
    (completion_percentage : Option ℤ) : StoredEntry :=
  { e with
    end_time := some now
    duration_minutes := some (pyTrunc ((now - st) / 60))
    notes := completion_notes
    completion_percentage :=
      if completion_percentage.isSome then completion_percentage
      else e.completion_percentage }

/-- Helper for `end_work`: updates the first entry matching `work_id`.
Result `none` models the `TypeError` raised by
`datetime.fromisoformat(entry_dict["start_time"])` when the stored
`start_time` is null (breakdown-spawned "planned" entries); otherwise
`some (r, entries')` where `r` is the Python return value.
(The final `TimeEntry(**entry_dict)` could also raise on the extra breakdown
keys, but such an entry necessarily has a null `start_time`, so that raise is
shadowed by the earlier one.) -/
def end_workEntries (now : ℚ) (work_id completion_notes : String)
    (completion_percentage : Option ℤ) :
    List StoredEntry → Option (Option TimeEntry × List StoredEntry)
  | [] => some (none, [])
  | e :: rest =>
    if e.id = work_id then
      match e.start_time with
      | none => none
      | some st =>
        let e' := endUpdate e now st completion_notes completion_percentage
        some (some e'.toTimeEntry, e' :: rest)
    else
      match end_workEntries now work_id completion_notes completion_percentage rest with
      | none => none
      | some (r, rest') => some (r, e :: rest')

/-- `end_work`: sets `end_time`, computes
`duration_minutes = int((end_time - start_time).total_seconds() / 60)`
(truncation toward zero via `int()`), stores the notes and optional
completion percentage.  Returns `some (none, s)` when `work_id` is not found
(the Python `return None`), `none` when the call raises. -/
def end_work (s : Store) (work_id : String) (completion_notes : String)
    (completion_percentage : Option ℤ) (now : ℚ) :
    Option (Option TimeEntry × Store) :=
  match end_workEntries now work_id completion_notes completion_percentage s.entries with
  | none => none
  | some (r, es) => some (r, { s with entries := es })

/-- Helper for `record_distraction`: appends to the first matching entry. -/
def record_distractionEntries (now : ℚ) (work_id distraction_type : String)
    (duration_minutes : ℤ) (description : String) :
    List StoredEntry → Bool × List StoredEntry
  | [] => (false, [])
  | e :: rest =>
    if e.id = work_id then
      (true, { e with distractions := e.distractions ++
                [{ type := distraction_type, duration_minutes := duration_minutes,
                   description := description, timestamp := now }] } :: rest)
    else
      let (b, rest') :=
        record_distractionEntries now work_id distraction_type duration_minutes description rest
      (b, e :: rest')

/-- `record_distraction`: appends a distraction with `timestamp = now`;
returns `false` (store unchanged) when the id is unknown. -/
def record_distraction (s : Store) (work_id distraction_type : String)
    (duration_minutes : ℤ) (description : String) (now : ℚ) : Bool × Store :=
  let (b, es) :=
    record_distractionEntries now work_id distraction_type duration_minutes description s.entries
  (b, { s with entries := es })

/-- `get_entries_by_knowledge`: entries whose `knowledge_refs` contain the ref,
projected to the `TimeEntry` fields. -/
def get_entries_by_knowledge (s : Store) (knowledge_ref : String) : List TimeEntry :=
  (s.entries.filter (fun e => e.knowledge_refs.contains knowledge_ref)).map
    StoredEntry.toTimeEntry

/-- `get_entries_by_person`. -/
def get_entries_by_person (s : Store) (person_ref : String) : List TimeEntry :=
  (s.entries.filter (fun e => e.people_refs.contains person_ref)).map
    StoredEntry.toTimeEntry

/-! ## Statistics engine -/

/-- `find_similar_work`: completed entries (non-null duration) with an exact
`work_type` match, and — when the query's `knowledge_refs` is non-empty — at
least one knowledge ref in common.  The `_work_description` argument is
accepted but never used, exactly as in the source. -/
def find_similar_work (s : Store) (_work_description : String)
    (work_type : String) (knowledge_refs : List String) : List TimeEntry :=
  (s.entries.filter (fun e =>
      e.duration_minutes.isSome &&
      e.work_type == work_type &&
      (knowledge_refs.isEmpty ||
       e.knowledge_refs.any (fun k => knowledge_refs.contains k)))).map
    StoredEntry.toTimeEntry

/-- `calculate_statistics`: population mean and population variance of the
non-null `duration_minutes`; `(0, 0)` when there is nothing to average and
variance `0` for a single sample. -/
def calculate_statistics (entries : List TimeEntry) : ℚ × ℚ :=
  if entries = [] then (0, 0)
  else
    let durations : List ℤ := entries.filterMap (fun e => e.duration_minutes)
    if durations = [] then (0, 0)
    else
      let mean : ℚ := ((durations.map (fun d => (d : ℚ))).sum) / durations.length
      let variance : ℚ :=
        if durations.length = 1 then 0
        else ((durations.map (fun d => ((d : ℚ) - mean) ^ 2)).sum) / durations.length
      (mean, variance)

/-! ## Estimation engine -/

/-- Python `f"{d} min"` for an optional int (`None` prints as `"None"`). -/
def optIntText (d : Option ℤ) : String :=
  match d with
  | none => "None"
  | some v => toString v

/-- `_build_estimate_explanation`. -/
def build_estimate_explanation (similar_work : List TimeEntry) (mean std_dev : ℚ)
    (work_type : String) (knowledge_refs : List String) : String :=
  let p1 := "Based on " ++ toString similar_work.length ++ " similar " ++
    work_type ++ " work items"
  let parts1 := [p1]
  let parts2 :=
    if knowledge_refs = [] then parts1
    else parts1 ++ ["related to: " ++ String.intercalate ", " knowledge_refs]
  let parts3 := parts2 ++
    ["Average duration: " ++ fmt1 mean ++ " minutes (" ++ String.singleton (Char.ofNat 177) ++
     fmt1 std_dev ++ " minutes)"]
  let workRef := fun (e : TimeEntry) =>
    squote ++ e.work_description ++ squote ++ " (" ++ optIntText e.duration_minutes ++ " min)"
  let parts4 :=
    if similar_work.length ≤ 3 then
      parts3 ++ ["Historical work: " ++ String.intercalate ", " (similar_work.map workRef)]
    else
      parts3 ++ ["Sample work: " ++
        String.intercalate ", " ((similar_work.take 3).map workRef) ++
        " (and " ++ toString (similar_work.length - 3) ++ " more)"]
  String.intercalate ". " parts4 ++ "."

/-- `generate_estimate`.  `math.sqrt` is the explicit argument `sqrtQ`. -/
def generate_estimate (sqrtQ : ℚ → ℚ) (s : Store) (work_description work_type : String)
    (knowledge_refs : List String) : Option EstimateResult :=
  let similar_work := find_similar_work s work_description work_type knowledge_refs
  if similar_work = [] then none
  else
    let st := calculate_statistics similar_work
    let mean := st.1
    let variance := st.2
    let std_dev := sqrtQ variance
    let min_estimate := max 0 (mean - std_dev)
    let max_estimate := mean + std_dev
    some { mean_minutes := mean, variance := variance, std_dev := std_dev,
           min_estimate := min_estimate, max_estimate := max_estimate,
           confidence_range := (min_estimate, max_estimate),
           similar_work_count := similar_work.length,
           similar_work_ids := similar_work.map (fun e => e.id),
           explanation :=
             build_estimate_explanation similar_work mean std_dev work_type knowledge_refs }

/-- Result dictionary of `calculate_distraction_impact`. -/
structure DistractionImpact where
  average_duration_with_distractions : ℚ
  average_duration_without_distractions : ℚ
  average_distraction_overhead_minutes : ℚ
  average_distraction_overhead_percentage : ℚ
  total_distraction_time : ℤ
  entries_with_distractions : ℕ
  entries_without_distractions : ℕ
deriving DecidableEq, Repr

/-- The completed entries considered by `calculate_distraction_impact`,
optionally narrowed to one work type. -/
def impactEntries (s : Store) (work_type : Option String) : List StoredEntry :=
  let completed := s.entries.filter (fun e => e.duration_minutes.isSome)
  match work_type with
  | some wt => completed.filter (fun e => e.work_type == wt)
  | none => completed

/-- `sum(e["duration_minutes"] for e in l) / len(l)` guarded by `else 0.0`. -/
def avgDuration (l : List StoredEntry) : ℚ :=
  if l = [] then 0
  else ((l.map (fun e => ((e.duration_minutes.getD 0 : ℤ) : ℚ))).sum) / l.length

/-- `calculate_distraction_impact`: over completed entries (optionally filtered
by work type), compares average duration with vs. without distractions. -/
def calculate_distraction_impact (s : Store) (work_type : Option String) :
    DistractionImpact :=
  let entries := impactEntries s work_type
  let with_d := entries.filter (fun e => !e.distractions.isEmpty)
  let without_d := entries.filter (fun e => e.distractions.isEmpty)
  let total_distraction_time :=
    ((with_d.map (fun e => (e.distractions.map (fun d => d.duration_minutes)).sum)).sum)
  let avg_with := avgDuration with_d
  let avg_without := avgDuration without_d
  let overhead_minutes := avg_with - avg_without
  let overhead_percentage :=
    if 0 < avg_without then overhead_minutes / avg_without * 100 else 0
  { average_duration_with_distractions := avg_with,
    average_duration_without_distractions := avg_without,
    average_distraction_overhead_minutes := overhead_minutes,
    average_distraction_overhead_percentage := overhead_percentage,
    total_distraction_time := total_distraction_time,
    entries_with_distractions := with_d.length,
    entries_without_distractions := without_d.length }

/-- `generate_estimate_with_distraction_overhead`: scales the base estimate's
mean, min and max by `(1 + overhead_pct/100)` when distracted entries exist
for the work type; variance and std_dev are kept from the base estimate. -/
def generate_estimate_with_distraction_overhead (sqrtQ : ℚ → ℚ) (s : Store)
    (work_description work_type : String) (knowledge_refs : List String) :
    Option EstimateResult :=
  match generate_estimate sqrtQ s work_description work_type knowledge_refs with
  | none => none
  | some base =>
    let impact := calculate_distraction_impact s (some work_type)
    if 0 < impact.entries_with_distractions then
      let p := impact.average_distraction_overhead_percentage
      let adjusted_mean := base.mean_minutes * (1 + p / 100)
      let adjusted_min := base.min_estimate * (1 + p / 100)
      let adjusted_max := base.max_estimate * (1 + p / 100)
      some { base with
        mean_minutes := adjusted_mean, min_estimate := adjusted_min,
        max_estimate := adjusted_max,
        confidence_range := (adjusted_min, adjusted_max),
        explanation := base.explanation ++
          " Adjusted for typical distraction overhead: +" ++ fmt1 p ++ "% (" ++
          fmt1 impact.average_distraction_overhead_minutes ++ " minutes) based on " ++
          toString impact.entries_with_distractions ++
          " historical work items with distractions." }
    else some base

/-- Result of `get_knowledge_time_investment` (the `work_items` echo list of
display summaries is omitted: it repeats fields of the completed entries). -/
structure TimeInvestment where
  knowledge_ref : String
  total_minutes : ℤ
  work_item_count : ℕ
  average_duration : ℚ
deriving DecidableEq, Repr

/-- `get_knowledge_time_investment`: total/count/average of completed entries
linked to the knowledge ref. -/
def get_knowledge_time_investment (s : Store) (knowledge_ref : String) :
    TimeInvestment :=
  let entries := get_entries_by_knowledge s knowledge_ref
  let completed := entries.filter (fun e => e.duration_minutes.isSome)
  if completed = [] then
    { knowledge_ref := knowledge_ref, total_minutes := 0, work_item_count := 0,
      average_duration := 0 }
  else
    let total := (completed.filterMap (fun e => e.duration_minutes)).sum
    { knowledge_ref := knowledge_ref, total_minutes := total,
      work_item_count := completed.length,
      average_duration := (total : ℚ) / completed.length }

/-- The experience tier table of `generate_experience_adjusted_estimate`:
level name and multiplier as a function of `total_experience_minutes`. -/
def experience_tier (total_experience_minutes : ℤ) : String × ℚ :=
  if total_experience_minutes < 120 then ("novice", 12/10)
  else if total_experience_minutes < 480 then ("intermediate", 1)
  else if total_experience_minutes < 1200 then ("experienced", 85/100)
  else ("expert", 7/10)

/-- Sum of `get_knowledge_time_investment(...)["total_minutes"]` over the
supplied knowledge refs. -/
def total_experience_minutes (s : Store) (knowledge_refs : List String) : ℤ :=
  (knowledge_refs.map (fun k => (get_knowledge_time_investment s k).total_minutes)).sum

/-- The per-knowledge-area experience summary string. -/
def experience_summary (s : Store) (knowledge_refs : List String) : String :=
  String.intercalate ", " (knowledge_refs.map (fun k =>
    let inv := get_knowledge_time_investment s k
    k ++ " (" ++ toString inv.total_minutes ++ " min, " ++
      toString inv.work_item_count ++ " items)"))

/-- `generate_experience_adjusted_estimate`: scales the base estimate's mean,
min and max by the experience-tier multiplier; variance/std_dev kept. -/
def generate_experience_adjusted_estimate (sqrtQ : ℚ → ℚ) (s : Store)
    (work_description work_type : String) (knowledge_refs : List String) :
    Option EstimateResult :=
  match generate_estimate sqrtQ s work_description work_type knowledge_refs with
  | none => none
  | some base =>
    if knowledge_refs = [] then some base
    else
      let totalExp := total_experience_minutes s knowledge_refs
      let tier := experience_tier totalExp
      let adjusted_mean := base.mean_minutes * tier.2
      let adjusted_min := base.min_estimate * tier.2
      let adjusted_max := base.max_estimate * tier.2
      some { base with
        mean_minutes := adjusted_mean, min_estimate := adjusted_min,
        max_estimate := adjusted_max,
        confidence_range := (adjusted_min, adjusted_max),
        explanation := base.explanation ++
          " Experience adjustment: " ++ tier.1 ++ " level (" ++
          toString totalExp ++ " total minutes across " ++
          toString knowledge_refs.length ++ " knowledge areas). " ++
          "Estimate adjusted by " ++ toString tier.2 ++ "x. " ++
          "Experience breakdown: " ++ experience_summary s knowledge_refs ++ "." }

/-- `generate_collaboration_adjusted_estimate`: when completed same-type
entries sharing a person exist (and their mean is positive), the base
statistics are wholly replaced by the collaborative population's. -/
def generate_collaboration_adjusted_estimate (sqrtQ : ℚ → ℚ) (s : Store)
    (work_description work_type : String) (people_refs knowledge_refs : List String) :
    Option EstimateResult :=
  match generate_estimate sqrtQ s work_description work_type knowledge_refs with
  | none => none
  | some base =>
    if people_refs = [] then some base
    else
      let collab := (s.entries.filter (fun e =>
          e.duration_minutes.isSome &&
          e.work_type == work_type &&
          e.people_refs.any (fun p => people_refs.contains p))).map
        StoredEntry.toTimeEntry
      if collab = [] then some base
      else
        let st := calculate_statistics collab
        let collab_mean := st.1
        let collab_variance := st.2
        if 0 < collab_mean then
          let collab_std_dev := sqrtQ collab_variance
          let adjusted_min := max 0 (collab_mean - collab_std_dev)
          let adjusted_max := collab_mean + collab_std_dev
          some { mean_minutes := collab_mean, variance := collab_variance,
                 std_dev := collab_std_dev, min_estimate := adjusted_min,
                 max_estimate := adjusted_max,
                 confidence_range := (adjusted_min, adjusted_max),
                 similar_work_count := collab.length,
                 similar_work_ids := collab.map (fun e => e.id),
                 explanation := "Based on " ++ toString collab.length ++
                   " similar " ++ work_type ++ " work items involving " ++
                   String.intercalate ", " people_refs ++
                   ". Average collaborative duration: " ++ fmt1 collab_mean ++
                   " minutes (" ++ String.singleton (Char.ofNat 177) ++
                   fmt1 collab_std_dev ++ " minutes). " ++
                   "Collaborative work with these people typically takes " ++
                   fmt1 ((collab_mean - base.mean_minutes) / base.mean_minutes * 100) ++
                   "% " ++
                   (if base.mean_minutes < collab_mean then "more" else "less") ++
                   " time than solo work." }
        else some base

/-! ## Complexity and breakdown engine -/

/-- Result dictionary of `analyze_complexity`. -/
structure ComplexityResult where
  complexity_score : ℕ
  complexity_level : String
  indicators : List String
  recommendation : String
deriving DecidableEq, Repr

/-- The fixed action-verb keyword list. -/
def action_verbs : List String :=
  ["implement", "create", "build", "design", "develop", "write",
   "test", "deploy", "configure", "setup", "integrate", "refactor",
   "update", "modify", "add", "remove", "fix", "debug"]

/-- The fixed conjunction keyword list. -/
def conjunction_words : List String :=
  ["and", "then", "also", "plus", "along with", "as well as"]

/-- The fixed scope-word list. -/
def scope_words : List String :=
  ["complete", "full", "entire", "comprehensive", "end-to-end", "all"]

/-- `sum(1 for w in ws if w in dl)`: how many keywords occur in `dl`. -/
def countHits (dl : String) (ws : List String) : ℕ :=
  (ws.filter (fun w => strContains dl w)).length

/-- `analyze_complexity`: additive heuristic score over description length,
action verbs, conjunctions and scope words; level "high" at score ≥ 5,
"medium" at ≥ 3, else "low". -/
def analyze_complexity (work_description : String) : ComplexityResult :=
  let dl := pyLower work_description
  let p1 : ℕ × List String :=
    if 100 < work_description.length then
      (2, ["Long description suggests multiple components"])
    else if 50 < work_description.length then
      (1, ["Moderate description length"])
    else (0, [])
  let vc := countHits dl action_verbs
  let p2 : ℕ × List String :=
    if 3 ≤ vc then
      (2, ["Multiple action verbs (" ++ toString vc ++ ") suggest multiple tasks"])
    else if 2 ≤ vc then
      (1, ["Multiple actions (" ++ toString vc ++ ") detected"])
    else (0, [])
  let cc := countHits dl conjunction_words
  let p3 : ℕ × List String :=
    if 2 ≤ cc then
      (2, ["Multiple conjunctions (" ++ toString cc ++ ") suggest compound work"])
    else if 1 ≤ cc then
      (1, ["Conjunctions suggest multiple components"])
    else (0, [])
  let sc := countHits dl scope_words
  let p4 : ℕ × List String :=
    if 2 ≤ sc then (2, ["Broad scope indicators detected"])
    else if 1 ≤ sc then (1, ["Scope indicator suggests larger work item"])
    else (0, [])
  let score := p1.1 + p2.1 + p3.1 + p4.1
  let lr : String × String :=
    if 5 ≤ score then ("high", "Strong candidate for breakdown into smaller chunks")
    else if 3 ≤ score then ("medium", "Consider breaking down into 2-3 chunks")
    else ("low", "Appears to be a single, focused work item")
  { complexity_score := score, complexity_level := lr.1,
    indicators := p1.2 ++ p2.2 ++ p3.2 ++ p4.2, recommendation := lr.2 }

/-- The fallback heuristic minute table of `_estimate_chunk`. -/
def chunk_heuristic : String → ℚ
  | "design" => 60
  | "implement" => 120
  | "test" => 60
  | "document" => 30
  | "research" => 45
  | "draft" => 90
  | "edit" => 30
  | "prepare" => 20
  | "attend" => 60
  | "followup" => 30
  | "generic" => 60
  | _ => 60

/-- `_estimate_chunk`: mean of similar work (matching by `work_type` and
`knowledge_refs` only, since the description argument of `find_similar_work`
is ignored) when positive, else the fixed heuristic table. -/
def estimate_chunk (s : Store) (chunk_type work_type : String)
    (knowledge_refs : List String) : ℚ :=
  let similar_work := find_similar_work s chunk_type work_type knowledge_refs
  if similar_work = [] then chunk_heuristic chunk_type
  else
    let mean := (calculate_statistics similar_work).1
    if 0 < mean then mean else chunk_heuristic chunk_type

/-- `any(word in dl for word in ws)`. -/
def containsAnyKw (dl : String) (ws : List String) : Bool :=
  ws.any (fun w => strContains dl w)

/-- `[chunks[-1].id] if chunks else []`. -/
def lastChunkDep (chunks : List WorkChunk) : List String :=
  match chunks.getLast? with
  | some c => [c.id]
  | none => []

/-- `_generate_chunks_by_type`: phase chunks per work type.  For "technical"
the design/implement/test/document phases are keyword-gated (test and
document also trigger on high complexity); "writing" and "meeting" always
emit three fixed phases; other types get a generic 4- or 2-phase split. -/
def generate_chunks_by_type (s : Store) (work_description work_type : String)
    (knowledge_refs : List String) (complexity_level : String) : List WorkChunk :=
  let dl := pyLower work_description
  if work_type = "technical" then
    let c1 : List WorkChunk :=
      if containsAnyKw dl ["design", "architecture", "plan", "spec"] then
        [{ id := "chunk_1", description := "Design and plan: " ++ work_description,
           estimated_minutes := estimate_chunk s "design" work_type knowledge_refs,
           work_type := work_type, knowledge_refs := knowledge_refs,
           dependencies := [] }]
      else []
    let c2 : List WorkChunk :=
      if containsAnyKw dl ["implement", "build", "create", "develop", "code"] then
        c1 ++ [{ id := "chunk_" ++ toString (c1.length + 1),
                 description := "Implement core functionality: " ++ work_description,
                 estimated_minutes := estimate_chunk s "implement" work_type knowledge_refs,
                 work_type := work_type, knowledge_refs := knowledge_refs,
                 dependencies := lastChunkDep c1 }]
      else c1
    let c3 : List WorkChunk :=
      if containsAnyKw dl ["test", "verify", "validate"] || complexity_level = "high" then
        c2 ++ [{ id := "chunk_" ++ toString (c2.length + 1),
                 description := "Test and validate: " ++ work_description,
                 estimated_minutes := estimate_chunk s "test" work_type knowledge_refs,
                 work_type := work_type, knowledge_refs := knowledge_refs,
                 dependencies := lastChunkDep c2 }]
      else c2
    let c4 : List WorkChunk :=
      if containsAnyKw dl ["document", "doc", "write"] || complexity_level = "high" then
        c3 ++ [{ id := "chunk_" ++ toString (c3.length + 1),
                 description := "Document: " ++ work_description,
                 estimated_minutes := estimate_chunk s "document" work_type knowledge_refs,
                 work_type := "writing", knowledge_refs := knowledge_refs,
                 dependencies := lastChunkDep c3 }]
      else c3
    c4
  else if work_type = "writing" then
    [{ id := "chunk_1", description := "Research and outline: " ++ work_description,
       estimated_minutes := estimate_chunk s "research" work_type knowledge_refs,
       work_type := work_type, knowledge_refs := knowledge_refs, dependencies := [] },
     { id := "chunk_2", description := "Write first draft: " ++ work_description,
       estimated_minutes := estimate_chunk s "draft" work_type knowledge_refs,
       work_type := work_type, knowledge_refs := knowledge_refs,
       dependencies := ["chunk_1"] },
     { id := "chunk_3", description := "Review and edit: " ++ work_description,
       estimated_minutes := estimate_chunk s "edit" work_type knowledge_refs,
       work_type := work_type, knowledge_refs := knowledge_refs,
       dependencies := ["chunk_2"] }]
  else if work_type = "meeting" then
    [{ id := "chunk_1", description := "Prepare for: " ++ work_description,
       estimated_minutes := estimate_chunk s "prepare" work_type knowledge_refs,
       work_type := work_type, knowledge_refs := knowledge_refs, dependencies := [] },
     { id := "chunk_2", description := "Attend: " ++ work_description,
       estimated_minutes := estimate_chunk s "attend" work_type knowledge_refs,
       work_type := work_type, knowledge_refs := knowledge_refs,
       dependencies := ["chunk_1"] },
     { id := "chunk_3", description := "Follow-up actions: " ++ work_description,
       estimated_minutes := estimate_chunk s "followup" work_type knowledge_refs,
       work_type := work_type, knowledge_refs := knowledge_refs,
       dependencies := ["chunk_2"] }]
  else
    let phase_count : ℕ := if complexity_level = "high" then 4 else 2
    (List.range phase_count).map (fun i =>
      { id := "chunk_" ++ toString (i + 1),
        description := "Phase " ++ toString (i + 1) ++ ": " ++ work_description,
        estimated_minutes := estimate_chunk s "generic" work_type knowledge_refs,
        work_type := work_type, knowledge_refs := knowledge_refs,
        dependencies := if 0 < i then ["chunk_" ++ toString i] else [] })

/-- `suggest_breakdown`: `None` for low complexity, otherwise dispatches to
`_generate_chunks_by_type` and also returns `None` when that yields no
chunks.  The generated breakdown id and `created_at` clock are explicit
arguments. -/
def suggest_breakdown (s : Store) (work_description work_type : String)
    (knowledge_refs : List String) (now : ℚ) (breakdown_id : String) :
    Option WorkBreakdown :=
  let complexity := analyze_complexity work_description
  if complexity.complexity_level = "low" then none
  else
    let chunks := generate_chunks_by_type s work_description work_type
      knowledge_refs complexity.complexity_level
    if chunks = [] then none
    else
      some { original_work := work_description,
             estimated_total := (chunks.map (fun c => c.estimated_minutes)).sum,
             chunks := chunks, breakdown_id := breakdown_id,
             created_at := now, completed_chunks := [] }

/-- `accept_breakdown`: stores the breakdown and creates one "planned" entry
per chunk with `start_time = None` and the extra breakdown keys.  The
generated entry ids are explicit (`ids`, one per chunk). -/
def accept_breakdown (s : Store) (breakdown : WorkBreakdown) (ids : List String) :
    List String × Store :=
  let newEntries := (breakdown.chunks.zip ids).map (fun ci =>
    ({ id := ci.2, start_time := none, end_time := none, duration_minutes := none,
       work_description := ci.1.description, work_type := ci.1.work_type,
       knowledge_refs := ci.1.knowledge_refs, people_refs := [], distractions := [],
       completion_percentage := none,
       notes := "Part of breakdown: " ++ breakdown.breakdown_id,
       breakdown_id := some breakdown.breakdown_id, chunk_id := some ci.1.id,
       estimated_minutes := some ci.1.estimated_minutes } : StoredEntry))
  (newEntries.map (fun e => e.id),
   { entries := s.entries ++ newEntries, breakdowns := s.breakdowns ++ [breakdown] })

/-! ## Knowledge/people link operations -/

/-- Helper for `link_time_to_knowledge`: merges refs into the first matching
entry.  Python turns the union of the two sets back into a list, whose element
order is unspecified; the model fixes the canonical order `(old ++ new).dedup`
with the same set of elements and no duplicates. -/
def link_knowledgeEntries (work_id : String) (knowledge_refs : List String) :
    List StoredEntry → Bool × List StoredEntry
  | [] => (false, [])
  | e :: rest =>
    if e.id = work_id then
      (true, { e with knowledge_refs := (e.knowledge_refs ++ knowledge_refs).dedup } :: rest)
    else
      let r := link_knowledgeEntries work_id knowledge_refs rest
      (r.1, e :: r.2)

/-- `link_time_to_knowledge`: set-unions the refs into the entry; `false` and
an unchanged store when the id is unknown. -/
def link_time_to_knowledge (s : Store) (work_id : String)
    (knowledge_refs : List String) : Bool × Store :=
  let r := link_knowledgeEntries work_id knowledge_refs s.entries
  (r.1, { s with entries := r.2 })

/-- Helper for `link_time_to_people` (same shape as the knowledge variant). -/
def link_peopleEntries (work_id : String) (people_refs : List String) :
    List StoredEntry → Bool × List StoredEntry
  | [] => (false, [])
  | e :: rest =>
    if e.id = work_id then
      (true, { e with people_refs := (e.people_refs ++ people_refs).dedup } :: rest)
    else
      let r := link_peopleEntries work_id people_refs rest
      (r.1, e :: r.2)

/-- `link_time_to_people`. -/
def link_time_to_people (s : Store) (work_id : String)
    (people_refs : List String) : Bool × Store :=
  let r := link_peopleEntries work_id people_refs s.entries
  (r.1, { s with entries := r.2 })

/-! ## Estimation accuracy backtest -/

/-- One raw deviation record appended during the accuracy backtest. -/
structure RawDeviation where
  type : String
  work_type : String
  estimated : ℚ
  actual : ℤ
  error_percentage : ℚ
deriving DecidableEq, Repr

/-- Accumulator of the backtest loop. -/
structure AccAgg where
  total : ℕ
  accurate : ℕ
  over : ℕ
  under : ℕ
  errors : List ℚ
  deviations : List RawDeviation
deriving DecidableEq, Repr

/-- One iteration of the backtest loop of `analyze_estimation_accuracy`.
`none` models the `ZeroDivisionError` of
`abs(actual - estimated) / actual * 100` when the entry's actual duration is
zero (reached whenever same-type prior history with non-zero mean exists). -/
def accuracyStep (tol : ℚ) (prior : List TimeEntry) (entry : TimeEntry)
    (agg : AccAgg) : Option AccAgg :=
  if prior = [] then some agg
  else
    let similar := prior.filter (fun e => e.work_type == entry.work_type)
    if similar = [] then some agg
    else
      let mean := (calculate_statistics similar).1
      if mean = 0 then some agg
      else
        let actual : ℤ := entry.duration_minutes.getD 0
        if actual = 0 then none
        else
          let error_percentage := |(actual : ℚ) - mean| / (actual : ℚ) * 100
          let agg' := { agg with
            total := agg.total + 1
            errors := agg.errors ++ [error_percentage] }
          if error_percentage ≤ tol then
            some { agg' with accurate := agg'.accurate + 1 }
          else if (actual : ℚ) < mean then
            some { agg' with
              over := agg'.over + 1
              deviations := agg'.deviations ++
                [{ type := "overestimate", work_type := entry.work_type,
                   estimated := mean, actual := actual,
                   error_percentage := error_percentage }] }
          else
            some { agg' with
              under := agg'.under + 1
              deviations := agg'.deviations ++
                [{ type := "underestimate", work_type := entry.work_type,
                   estimated := mean, actual := actual,
                   error_percentage := error_percentage }] }

/-- The backtest loop: walks the completed entries, treating the already
visited ones as "history". -/
def accuracyFold (tol : ℚ) (prior : List TimeEntry) :
    List TimeEntry → AccAgg → Option AccAgg
  | [], agg => some agg
  | e :: rest, agg =>
    match accuracyStep tol prior e agg with
    | none => none
    | some agg' => accuracyFold tol (prior ++ [e]) rest agg'

/-- Grouping accumulator of `_identify_common_patterns`. -/
structure PatternGroup where
  work_type : String
  deviation_type : String
  count : ℕ
  total_error : ℚ
deriving DecidableEq, Repr

/-- Insert one deviation into the (first-seen ordered) group list. -/
def addPattern : List PatternGroup → RawDeviation → List PatternGroup
  | [], p => [{ work_type := p.work_type, deviation_type := p.type, count := 1,
                total_error := p.error_percentage }]
  | g :: rest, p =>
    if g.work_type = p.work_type ∧ g.deviation_type = p.type then
      { g with count := g.count + 1,
               total_error := g.total_error + p.error_percentage } :: rest
    else g :: addPattern rest p

/-- Stable-descending insertion by occurrence count (models Python's stable
`sort(key=..., reverse=True)`). -/
def insertByCountDesc (p : DeviationPattern) :
    List DeviationPattern → List DeviationPattern
  | [] => [p]
  | q :: rest =>
    if q.occurrence_count < p.occurrence_count then p :: q :: rest
    else q :: insertByCountDesc p rest

/-- `_identify_common_patterns`: group deviations by (work_type, type), keep
groups with count ≥ 2, sort by occurrence count descending. -/
def identify_common_patterns (deviation_patterns : List RawDeviation) :
    List DeviationPattern :=
  let groups := deviation_patterns.foldl addPattern []
  let filtered := groups.filter (fun g => 2 ≤ g.count)
  let formatted := filtered.map (fun g =>
    ({ work_type := g.work_type, deviation_type := g.deviation_type,
       occurrence_count := g.count,
       average_error_percentage := g.total_error / g.count } : DeviationPattern))
  formatted.foldl (fun acc p => insertByCountDesc p acc) []

/-- `analyze_estimation_accuracy`: retrospective backtest over the completed
entries in stored order.  `none` models a raised exception: either the
`TypeError` of `TimeEntry(**entry)` on a completed entry that still carries
the extra breakdown keys, or the `ZeroDivisionError` inside the loop. -/
def analyze_estimation_accuracy (s : Store) (tolerance_percentage : ℚ) :
    Option EstimationAccuracy :=
  let completedRaw := s.entries.filter (fun e => e.duration_minutes.isSome)
  if completedRaw.any (fun e =>
      e.breakdown_id.isSome || e.chunk_id.isSome || e.estimated_minutes.isSome) then
    none
  else
    let completed := completedRaw.map StoredEntry.toTimeEntry
    if completed.length < 2 then
      some { total_estimates := 0, accurate_estimates := 0, overestimates := 0,
             underestimates := 0, average_error_percentage := 0,
             common_deviation_patterns := [] }
    else
      match accuracyFold tolerance_percentage [] completed
        { total := 0, accurate := 0, over := 0, under := 0, errors := [],
          deviations := [] } with
      | none => none
      | some agg =>
        let avg := if agg.errors = [] then 0 else agg.errors.sum / agg.errors.length
        some { total_estimates := agg.total, accurate_estimates := agg.accurate,
               overestimates := agg.over, underestimates := agg.under,
               average_error_percentage := avg,
               common_deviation_patterns := identify_common_patterns agg.deviations }

/-! ## Time trends by knowledge -/

/-- Result of `get_time_trends_by_knowledge` (`period_data` is the sorted
period/minutes list; the echoed `group_by` string is subsumed by the
`periodKey` abstraction). -/
structure TrendResult where
  knowledge_ref : String
  period_data : List (String × ℤ)
  total_minutes : ℤ
  trend_direction : String
  days_analyzed : ℤ
deriving DecidableEq, Repr

/-- Add `v` minutes to the bucket keyed `k`, preserving first-seen dict
order. -/
def addToPeriod : List (String × ℤ) → String → ℤ → List (String × ℤ)
  | [], k, v => [(k, v)]
  | p :: rest, k, v =>
    if p.1 = k then (p.1, p.2 + v) :: rest else p :: addToPeriod rest k v

/-- Insertion into a key-sorted association list (`sorted(period_data.items())`;
keys are unique, so plain key order suffices). -/
def insertByKey (p : String × ℤ) : List (String × ℤ) → List (String × ℤ)
  | [] => [p]
  | q :: rest => if p.1 ≤ q.1 then p :: q :: rest else q :: insertByKey p rest

/-- Sort an association list by key. -/
def sortByKey (l : List (String × ℤ)) : List (String × ℤ) :=
  l.foldr insertByKey []

/-- The trend classification of `get_time_trends_by_knowledge`: average of the
first half of the sorted buckets vs. the second half, strict ±20% bands. -/
def trend_direction_of (sorted_periods : List (String × ℤ)) : String :=
  if 2 ≤ sorted_periods.length then
    let midpoint := sorted_periods.length / 2
    let first_half_avg : ℚ :=
      if 0 < midpoint then
        (((sorted_periods.take midpoint).map (fun p => (p.2 : ℚ))).sum) / midpoint
      else 0
    let second_half_avg : ℚ :=
      if 0 < sorted_periods.length - midpoint then
        (((sorted_periods.drop midpoint).map (fun p => (p.2 : ℚ))).sum) /
          (sorted_periods.length - midpoint)
      else 0
    if first_half_avg * (12/10) < second_half_avg then "increasing"
    else if second_half_avg < first_half_avg * (8/10) then "decreasing"
    else "stable"
  else "stable"

/-- `get_time_trends_by_knowledge`: filters completed entries to the recency
window (`cutoff = now - days·86400` seconds) and the optional knowledge ref,
buckets minutes by period key and classifies the trend.  The `strftime`
day/week/month bucketing is abstracted as the `periodKey` argument.  `none`
models the `TypeError` of `datetime.fromisoformat(None)` when a filtered
entry has a null `start_time` (such an entry passes the date filter). -/
def get_time_trends_by_knowledge (s : Store) (knowledge_ref : Option String)
    (days : ℤ) (periodKey : ℚ → String) (now : ℚ) : Option TrendResult :=
  let cutoff : ℚ := now - (days : ℚ) * 86400
  let filtered := s.entries.filter (fun e =>
    e.duration_minutes.isSome &&
    (match e.start_time with
     | some st => decide (cutoff ≤ st)
     | none => true) &&
    (match knowledge_ref with
     | some k => e.knowledge_refs.contains k
     | none => true))
  if filtered.any (fun e => e.start_time.isNone) then none
  else
    let period_data := filtered.foldl (fun acc e =>
      addToPeriod acc (periodKey (e.start_time.getD 0)) (e.duration_minutes.getD 0)) []
    let sorted_periods := sortByKey period_data
    some { knowledge_ref := knowledge_ref.getD "all",
           period_data := sorted_periods,
           total_minutes := (period_data.map (fun p => p.2)).sum,
           trend_direction := trend_direction_of sorted_periods,
           days_analyzed := days }

/-! ## Reachable stores -/

/-- Stores reachable from the initial empty document through the public
mutating operations, for arbitrary caller inputs, clocks and generated ids. -/
inductive Reachable : Store → Prop
  | init : Reachable { entries := [], breakdowns := [] }
  | startw (s : Store) (d wt : String) (kr pr : List String) (t : ℚ) (w : String) :
      Reachable s → Reachable (start_work s d wt kr pr t w).2
  | endw (s : Store) (w n : String) (cp : Option ℤ) (t : ℚ)
      (r : Option TimeEntry) (s' : Store) :
      Reachable s → end_work s w n cp t = some (r, s') → Reachable s'
  | distract (s : Store) (w ty : String) (dm : ℤ) (d : String) (t : ℚ) :
      Reachable s → Reachable (record_distraction s w ty dm d t).2
  | linkk (s : Store) (w : String) (kr : List String) :
      Reachable s → Reachable (link_time_to_knowledge s w kr).2
  | linkp (s : Store) (w : String) (pr : List String) :
      Reachable s → Reachable (link_time_to_people s w pr).2
  | acceptb (s : Store) (bd : WorkBreakdown) (ids : List String) :
      Reachable s → Reachable (accept_breakdown s bd ids).2

/-! ## Concrete fixtures used by witnesses and counterexamples -/

/-- The initial store (`{"entries": [], "version": "1.0"}`). -/
def emptyStore : Store := { entries := [], breakdowns := [] }

/-- A completed stored entry with the given id, work type, knowledge refs and
duration, no distractions and no breakdown keys. -/
def mkCompleted (i wt : String) (kr : List String) (d : ℤ) : StoredEntry :=
  { id := i, start_time := some 0, end_time := some (d * 60),
    duration_minutes := some d, work_description := "hist " ++ i,
    work_type := wt, knowledge_refs := kr, people_refs := [],
    distractions := [], completion_percentage := none, notes := "",
    breakdown_id := none, chunk_id := none, estimated_minutes := none }

/-- An exact square root on rationals whose numerator and denominator are
perfect squares; the concrete fixtures below only evaluate `math.sqrt` at
such points (e.g. `sqrtE 25 = 5`), where the Python float result is exact. -/
def sqrtE (q : ℚ) : ℚ := (Nat.sqrt q.num.toNat : ℚ) / (Nat.sqrt q.den : ℚ)

/-- Two completed technical entries (durations 10 and 20, knowledge ref "k"):
mean 15, variance 25, std-dev 5. -/
def c4Store : Store :=
  { entries := [mkCompleted "e1" "technical" ["k"] 10,
                mkCompleted "e2" "technical" ["k"] 20],
    breakdowns := [] }

/-! ## C1: duration stored by `end_work` -/

/-- Store with one open entry started at second 0 by `start_work`. -/
def c1Store : Store := (start_work emptyStore "write spec" "writing" [] [] 0 "w1").2

/-- Skipping lemma: `end_workEntries` passes an unmatched head through. -/
theorem end_workEntries_cons_ne (now : ℚ) (w n : String) (cp : Option ℤ)
    (e : StoredEntry) (rest : List StoredEntry) (he : ¬ e.id = w) :
    end_workEntries now w n cp (e :: rest) =
      (end_workEntries now w n cp rest).map (fun r => (r.1, e :: r.2)) := by
  simp only [end_workEntries, if_neg he]
  cases end_workEntries now w n cp rest with
  | none => rfl
  | some r => rfl

/-- `end_workEntries` finds an appended fresh entry after skipping a prefix of
entries with different ids. -/
theorem end_workEntries_append_startEntry (now : ℚ) (w n desc wt : String)
    (cp : Option ℤ) (kr pr : List String) (t : ℚ) (l : List StoredEntry)
    (hl : ∀ en ∈ l, en.id ≠ w) :
    end_workEntries now w n cp (l ++ [startEntry desc wt kr pr t w]) =
      some (some (endUpdate (startEntry desc wt kr pr t w) now t n cp).toTimeEntry,
        l ++ [endUpdate (startEntry desc wt kr pr t w) now t n cp]) := by
  induction l with
  | nil => simp [end_workEntries, startEntry, endUpdate]
  | cons hd tl ih =>
    rw [List.cons_append,
      end_workEntries_cons_ne now w n cp hd _ (hl hd (List.mem_cons_self hd tl)),
      ih (fun x hx => hl x (List.mem_cons_of_mem hd hx))]
    rfl

/-- C1 (amended): closing an entry freshly created by `start_work` stores
`duration_minutes = int((end - start)/60)`, i.e. the elapsed minutes
truncated toward zero (equivalently floored, the elapsed time being
non-negative) — not rounded to nearest. -/
theorem C1_end_work_truncates_duration (s0 : Store) (desc wt : String)
    (kr pr : List String) (t : ℚ) (w : String) (n : String) (cp : Option ℤ)
    (e : ℚ) (hw : ∀ en ∈ s0.entries, en.id ≠ w) (hte : t ≤ e) :
    ∃ (r : TimeEntry) (s' : Store),
      end_work (start_work s0 desc wt kr pr t w).2 w n cp e = some (some r, s') ∧
      r.duration_minutes = some ⌊(e - t) / 60⌋ ∧
      r.start_time = some t ∧ r.end_time = some e := by
  have htr : pyTrunc ((e - t) / 60) = ⌊(e - t) / 60⌋ :=
    pyTrunc_eq_floor _ (div_nonneg (sub_nonneg.2 hte) (by norm_num))
  refine ⟨(endUpdate (startEntry desc wt kr pr t w) e t n cp).toTimeEntry,
    { (start_work s0 desc wt kr pr t w).2 with
      entries := s0.entries ++ [endUpdate (startEntry desc wt kr pr t w) e t n cp] },
    ?_, ?_, ?_, ?_⟩
  · simp only [end_work, start_work,
      end_workEntries_append_startEntry e w n desc wt cp kr pr t s0.entries hw]
  · simp [endUpdate, startEntry, StoredEntry.toTimeEntry, htr]
  · simp [endUpdate, startEntry, StoredEntry.toTimeEntry]
  · simp [endUpdate, startEntry, StoredEntry.toTimeEntry]

/-- Witness for C1: a fresh entry started at second 0 and closed at second 150
stores duration `⌊150/60⌋`. -/
theorem C1_end_work_truncates_duration_witness :
    ∃ (r : TimeEntry) (s' : Store),
      end_work (start_work emptyStore "write spec" "writing" [] [] 0 "w1").2
        "w1" "" none 150 = some (some r, s') ∧
      r.duration_minutes = some ⌊(150 - 0 : ℚ) / 60⌋ ∧
      r.start_time = some (0 : ℚ) ∧ r.end_time = some (150 : ℚ) :=
  C1_end_work_truncates_duration emptyStore "write spec" "writing" [] [] 0 "w1"
    "" none 150 (by simp [emptyStore]) (by norm_num)

/-- C1 counterexample: the same lifecycle at 90 elapsed seconds stores
duration 1, while `round(90/60) = round(1.5) = 2`; the stored value is the
truncation, not the claimed rounding. -/
theorem C1_counterexample :
    ((end_work c1Store "w1" "" none 90).map
      (fun p => p.1.map (fun r => r.duration_minutes))) = some (some (some 1)) ∧
    pyRound ((90 - 0) / 60) = 2 ∧ (1 : ℤ) ≠ 2 := by
  refine ⟨?_, by norm_num [pyRound], by decide⟩
  have h : end_workEntries 90 "w1" "" none
      ([] ++ [startEntry "write spec" "writing" [] [] 0 "w1"]) =
      some (some (endUpdate (startEntry "write spec" "writing" [] [] 0 "w1")
          90 0 "" none).toTimeEntry,
        [] ++ [endUpdate (startEntry "write spec" "writing" [] [] 0 "w1") 90 0 "" none]) :=
    end_workEntries_append_startEntry 90 "w1" "" "write spec" "writing" none [] [] 0 []
      (by simp)
  simp only [List.nil_append] at h
  simp only [c1Store, start_work, emptyStore, end_work, List.nil_append, h]
  simp only [Option.map_some, endUpdate, startEntry, StoredEntry.toTimeEntry]
  norm_num [pyTrunc]
  decide

/-! ## C5: `calculate_statistics` -/

/-- Durations are unaffected by pre-filtering to the non-null entries. -/
theorem filterMap_duration_filter (l : List TimeEntry) :
    (l.filter (fun e => e.duration_minutes.isSome)).filterMap
        (fun e => e.duration_minutes) =
      l.filterMap (fun e => e.duration_minutes) := by
  induction l with
  | nil => rfl
  | cons e rest ih =>
    cases h : e.duration_minutes with
    | none => simp [List.filter_cons, List.filterMap_cons, h, ih]
    | some d => simp [List.filter_cons, List.filterMap_cons, h, ih]

/-- A list of entries that all have durations yields one duration each. -/
theorem filterMap_duration_length_of_filter (l : List TimeEntry) :
    ((l.filter (fun e => e.duration_minutes.isSome)).filterMap
        (fun e => e.duration_minutes)).length =
      (l.filter (fun e => e.duration_minutes.isSome)).length := by
  induction l with
  | nil => rfl
  | cons e rest ih =>
    cases h : e.duration_minutes with
    | none => simp [List.filter_cons, List.filterMap_cons, h, ih]
    | some d => simp [List.filter_cons, List.filterMap_cons, h, ih]

/-- C5: `calculate_statistics` returns `(0,0)` on the empty list,
`(d, 0)` on a single completed entry, population mean/variance 20 and 200/3
on durations `[10, 20, 30]`, and ignores entries with null durations. -/
theorem C5_calculate_statistics :
    (calculate_statistics [] = (0, 0)) ∧
    (∀ (x : TimeEntry) (d : ℤ), x.duration_minutes = some d →
      calculate_statistics [x] = ((d : ℚ), 0)) ∧
    (∀ (x y z : TimeEntry), x.duration_minutes = some 10 →
      y.duration_minutes = some 20 → z.duration_minutes = some 30 →
      calculate_statistics [x, y, z] = (20, 200/3)) ∧
    (∀ l : List TimeEntry,
      calculate_statistics l =
        calculate_statistics (l.filter (fun e => e.duration_minutes.isSome))) := by
  refine ⟨rfl, ?_, ?_, ?_⟩
  · intro x d hd
    simp [calculate_statistics, List.filterMap_cons, hd]
  · intro x y z hx hy hz
    simp only [calculate_statistics, List.filterMap_cons, List.filterMap_nil, hx, hy, hz]
    rw [if_neg (by simp), if_neg (by simp)]
    norm_num
  · intro l
    unfold calculate_statistics
    rw [filterMap_duration_filter]
    by_cases hl : l = []
    · subst hl; rfl
    · rw [if_neg hl]
      by_cases hf : l.filter (fun e => e.duration_minutes.isSome) = []
      · have hdur : l.filterMap (fun e => e.duration_minutes) = [] := by
          rw [← filterMap_duration_filter, hf]; rfl
        rw [if_pos hf, if_pos hdur]
      · rw [if_neg hf]

/-- Witness for C5: the hypothesis-bearing parts evaluated on concrete
entries. -/
theorem C5_calculate_statistics_witness :
    calculate_statistics [(mkCompleted "a" "t" [] 10).toTimeEntry,
      (mkCompleted "b" "t" [] 20).toTimeEntry,
      (mkCompleted "c" "t" [] 30).toTimeEntry] = (20, 200/3) ∧
    calculate_statistics [(mkCompleted "a" "t" [] 7).toTimeEntry] = (7, 0) := by
  constructor
  · exact C5_calculate_statistics.2.2.1 _ _ _ rfl rfl rfl
  · exact C5_calculate_statistics.2.1 _ 7 rfl

/-! ## C7: `find_similar_work` is description-blind -/

/-- C7: two calls differing only in the description return the same list, and
the result is exactly the completed entries with an exact work-type match,
restricted to overlapping knowledge refs when the query supplies any. -/
theorem C7_find_similar_work_description_blind :
    (∀ (s : Store) (d1 d2 wt : String) (kr : List String),
      find_similar_work s d1 wt kr = find_similar_work s d2 wt kr) ∧
    (∀ (s : Store) (d wt : String) (kr : List String),
      find_similar_work s d wt kr =
        (s.entries.filter (fun en => decide (en.duration_minutes ≠ none ∧
            en.work_type = wt ∧
            (kr ≠ [] → ∃ k ∈ en.knowledge_refs, k ∈ kr)))).map
          StoredEntry.toTimeEntry) := by
  refine ⟨fun s d1 d2 wt kr => rfl, fun s d wt kr => ?_⟩
  unfold find_similar_work
  congr 1
  apply List.filter_congr
  intro en _
  rw [Bool.eq_iff_iff]
  rcases hd : en.duration_minutes with _ | d0 <;>
    rcases kr with _ | ⟨k0, ks⟩ <;>
      simp [hd, List.any_eq_true, and_assoc]

/-! ## C6: experience tiers -/

/-- C6: the experience-tier table has boundaries at 120, 480 and 1200 with
multipliers 1.2 / 1.0 / 0.85 / 0.7 (novice / intermediate / experienced /
expert), is monotonically non-increasing and exhaustive, and
`generate_experience_adjusted_estimate` scales the base estimate's mean, min
and max by exactly this multiplier of the total experience minutes. -/
theorem C6_experience_tiers :
    ((experience_tier 0).2 = 12/10 ∧ (experience_tier 119).2 = 12/10 ∧
     (experience_tier 120).2 = 1 ∧ (experience_tier 479).2 = 1 ∧
     (experience_tier 480).2 = 85/100 ∧ (experience_tier 1199).2 = 85/100 ∧
     (experience_tier 1200).2 = 7/10 ∧ (experience_tier 5000).2 = 7/10) ∧
    ((experience_tier 0).1 = "novice" ∧ (experience_tier 120).1 = "intermediate" ∧
     (experience_tier 480).1 = "experienced" ∧ (experience_tier 1200).1 = "expert") ∧
    (∀ a b : ℤ, a ≤ b → (experience_tier b).2 ≤ (experience_tier a).2) ∧
    (∀ (sq : ℚ → ℚ) (s : Store) (d wt : String) (kr : List String)
       (r : EstimateResult), kr ≠ [] →
      generate_experience_adjusted_estimate sq s d wt kr = some r →
      ∃ base, generate_estimate sq s d wt kr = some base ∧
        r.mean_minutes = base.mean_minutes *
          (experience_tier (total_experience_minutes s kr)).2 ∧
        r.min_estimate = base.min_estimate *
          (experience_tier (total_experience_minutes s kr)).2 ∧
        r.max_estimate = base.max_estimate *
          (experience_tier (total_experience_minutes s kr)).2) := by
  refine ⟨?_, ?_, ?_, ?_⟩
  · refine ⟨?_, ?_, ?_, ?_, ?_, ?_, ?_, ?_⟩ <;> norm_num [experience_tier]
  · refine ⟨?_, ?_, ?_, ?_⟩ <;> norm_num [experience_tier]
  · intro a b hab
    unfold experience_tier
    split_ifs <;> norm_num <;> omega
  · intro sq s d wt kr r hkr hr
    unfold generate_experience_adjusted_estimate at hr
    rcases hb : generate_estimate sq s d wt kr with _ | base
    · rw [hb] at hr; exact absurd hr (by simp)
    · rw [hb] at hr
      simp only [if_neg hkr] at hr
      refine ⟨base, rfl, ?_⟩
      cases hr
      exact ⟨rfl, rfl, rfl⟩

/-- Witness for C6: the monotonicity and scaling parts at concrete inputs. -/
theorem C6_experience_tiers_witness :
    (experience_tier 5000).2 ≤ (experience_tier 0).2 ∧
    (∃ (r base : EstimateResult),
      generate_experience_adjusted_estimate sqrtE c4Store "task" "technical" ["k"] =
        some r ∧
      generate_estimate sqrtE c4Store "task" "technical" ["k"] = some base ∧
      r.mean_minutes = base.mean_minutes *
        (experience_tier (total_experience_minutes c4Store ["k"])).2) := by
  constructor
  · exact C6_experience_tiers.2.2.1 0 5000 (by norm_num)
  · have hs : ∃ r, generate_experience_adjusted_estimate sqrtE c4Store "task"
        "technical" ["k"] = some r := by
      unfold generate_experience_adjusted_estimate
      rcases h : generate_estimate sqrtE c4Store "task" "technical" ["k"] with _ | b
      · exact absurd h (by
          unfold generate_estimate
          rw [if_neg (by norm_num [find_similar_work, c4Store, mkCompleted]; simp)]
          simp)
      · simp
    obtain ⟨r, hr⟩ := hs
    obtain ⟨base, hb, hm, _, _⟩ := C6_experience_tiers.2.2.2 sqrtE c4Store "task"
      "technical" ["k"] r (by simp) hr
    exact ⟨r, base, hr, hb, hm⟩

/-! ## C8: distraction impact -/

/-- Two completed technical entries: duration 60 with one 15-minute
distraction, and duration 40 with none. -/
def c8Store : Store :=
  { entries := [{ mkCompleted "d1" "technical" [] 60 with
                  distractions := [{ type := "meeting", duration_minutes := 15,
                                     description := "", timestamp := 100 }] },
                mkCompleted "d2" "technical" [] 40],
    breakdowns := [] }

/-- C8: `calculate_distraction_impact` reports
`overhead_pct = (avg_with - avg_without) / avg_without * 100` whenever the
distraction-free average is positive, the two averages are the group averages
of the completed work-type-matching entries with and without distractions,
and the two-entry scenario yields exactly
(avg_with, avg_without, overhead_min, overhead_pct) = (60, 40, 20, 50). -/
theorem C8_distraction_impact :
    (∀ (s : Store) (wt : Option String),
      0 < (calculate_distraction_impact s wt).average_duration_without_distractions →
      (calculate_distraction_impact s wt).average_distraction_overhead_percentage =
        ((calculate_distraction_impact s wt).average_duration_with_distractions -
         (calculate_distraction_impact s wt).average_duration_without_distractions) /
          (calculate_distraction_impact s wt).average_duration_without_distractions
          * 100) ∧
    (calculate_distraction_impact c8Store (some "technical") =
      { average_duration_with_distractions := 60,
        average_duration_without_distractions := 40,
        average_distraction_overhead_minutes := 20,
        average_distraction_overhead_percentage := 50,
        total_distraction_time := 15,
        entries_with_distractions := 1,
        entries_without_distractions := 1 }) := by
  constructor
  · intro s wt h
    dsimp only [calculate_distraction_impact] at h ⊢
    rw [if_pos h]
  · norm_num [calculate_distraction_impact, impactEntries, avgDuration, c8Store,
      mkCompleted, List.filter_cons]

/-- Witness for C8: the overhead formula holds on the concrete scenario. -/
theorem C8_distraction_impact_witness :
    (calculate_distraction_impact c8Store (some "technical")).average_distraction_overhead_percentage =
      ((calculate_distraction_impact c8Store (some "technical")).average_duration_with_distractions -
       (calculate_distraction_impact c8Store (some "technical")).average_duration_without_distractions) /
        (calculate_distraction_impact c8Store (some "technical")).average_duration_without_distractions
        * 100 :=
  C8_distraction_impact.1 c8Store (some "technical")
    (by rw [C8_distraction_impact.2]; norm_num)

/-! ## C9: trend classification -/

/-- A period-key function (stand-in for `strftime`) splitting the timeline at
second 100000. -/
def c9Key : ℚ → String := fun t => if t < 100000 then "A" else "B"

/-- A completed technical entry with a given start second. -/
def mkTimed (i : String) (st : ℚ) (d : ℤ) : StoredEntry :=
  { mkCompleted i "technical" [] d with start_time := some st }

/-- Buckets 100 then 121: a strict more-than-20% increase. -/
def c9IncStore : Store :=
  { entries := [mkTimed "t1" 0 100, mkTimed "t2" 150000 121], breakdowns := [] }

/-- Buckets 100 then 119: within the ±20% band. -/
def c9StableStore : Store :=
  { entries := [mkTimed "t1" 0 100, mkTimed "t2" 150000 119], breakdowns := [] }

/-- The classification of a two-bucket series compares `b` against `1.2a` and
`0.8a` strictly. -/
theorem trend_direction_of_pair (k1 k2 : String) (a b : ℤ) :
    trend_direction_of [(k1, a), (k2, b)] =
      (if (a : ℚ) * (12/10) < (b : ℚ) then "increasing"
       else if (b : ℚ) < (a : ℚ) * (8/10) then "decreasing"
       else "stable") := by
  simp only [trend_direction_of]
  norm_num

/-- Running the trend analysis on a store with entries in buckets "A" and "B"
(durations 100 and `v`) yields exactly those two sorted buckets. -/
theorem c9_run (v : ℤ) :
    get_time_trends_by_knowledge
      { entries := [mkTimed "t1" 0 100, mkTimed "t2" 150000 v], breakdowns := [] }
      none 90 c9Key 200000 =
    some { knowledge_ref := "all", period_data := [("A", 100), ("B", v)],
           total_minutes := 100 + v,
           trend_direction := trend_direction_of [("A", 100), ("B", v)],
           days_analyzed := 90 } := by
  have hA : c9Key 0 = "A" := by norm_num [c9Key]
  have hB : c9Key 150000 = "B" := by norm_num [c9Key]
  have hAB : ("A" : String) ≠ "B" := by decide
  have hle : ("A" : String) ≤ "B" := by
    rw [String.le_iff_toList_le]
    decide
  norm_num [get_time_trends_by_knowledge, mkTimed, mkCompleted, List.filter_cons,
    decide_eq_true_eq, hA, hB, hAB, hle, addToPeriod, sortByKey, insertByKey]

/-- C9: the trend of a two-bucket series `[a, b]` is "increasing" exactly when
`b > 1.2·a` and "decreasing" exactly when `b < 0.8·a` (strict comparisons),
and the full analysis classifies the series [100, 121] as "increasing" but
[100, 119] as "stable". -/
theorem C9_trend_classification :
    (∀ (k1 k2 : String) (a b : ℤ),
      trend_direction_of [(k1, a), (k2, b)] =
        (if (a : ℚ) * (12/10) < (b : ℚ) then "increasing"
         else if (b : ℚ) < (a : ℚ) * (8/10) then "decreasing"
         else "stable")) ∧
    ((get_time_trends_by_knowledge c9IncStore none 90 c9Key 200000).map
        (fun r => r.trend_direction) = some "increasing") ∧
    ((get_time_trends_by_knowledge c9StableStore none 90 c9Key 200000).map
        (fun r => r.trend_direction) = some "stable") := by
  refine ⟨trend_direction_of_pair, ?_, ?_⟩
  · unfold c9IncStore
    rw [c9_run 121]; simp only [Option.map_some']
    rw [trend_direction_of_pair]
    norm_num
  · unfold c9StableStore
    rw [c9_run 119]; simp only [Option.map_some']
    rw [trend_direction_of_pair]
    norm_num

/-! ## C4: estimate range invariants -/

/-- The base estimate satisfies the clamped-range equations by construction. -/
theorem generate_estimate_bounds (sq : ℚ → ℚ) (s : Store) (d wt : String)
    (kr : List String) (r : EstimateResult)
    (hr : generate_estimate sq s d wt kr = some r) :
    r.min_estimate = max 0 (r.mean_minutes - r.std_dev) ∧
    r.max_estimate = r.mean_minutes + r.std_dev ∧
    r.confidence_range = (r.min_estimate, r.max_estimate) ∧
    0 ≤ r.min_estimate := by
  unfold generate_estimate at hr
  by_cases h : find_similar_work s d wt kr = []
  · rw [if_pos h] at hr; exact absurd hr (by simp)
  · rw [if_neg h] at hr
    injection hr with hr
    subst hr
    exact ⟨rfl, rfl, rfl, le_max_left 0 _⟩

/-- Every experience multiplier is positive. -/
theorem experience_tier_pos (m : ℤ) : 0 < (experience_tier m).2 := by
  unfold experience_tier
  split_ifs <;> norm_num

/-- The guarded group average is non-negative on non-negative durations. -/
theorem avgDuration_nonneg (l : List StoredEntry)
    (h : ∀ e ∈ l, ∀ dv : ℤ, e.duration_minutes = some dv → 0 ≤ dv) :
    0 ≤ avgDuration l := by
  unfold avgDuration
  split_ifs with hl
  · exact le_refl 0
  · apply div_nonneg _ (by positivity)
    apply List.sum_nonneg
    intro x hx
    simp only [List.mem_map] at hx
    obtain ⟨e, he, rfl⟩ := hx
    rcases hdm : e.duration_minutes with _ | dv
    · simp [hdm]
    · have h0 := h e he dv hdm
      simp only [hdm, Option.getD_some]
      exact_mod_cast h0

/-- The impact population is drawn from the store's entries. -/
theorem impactEntries_subset (s : Store) (wt : Option String) :
    ∀ e ∈ impactEntries s wt, e ∈ s.entries := by
  intro e he
  cases wt with
  | none =>
    simp only [impactEntries] at he
    exact List.filter_subset' _ he
  | some w =>
    simp only [impactEntries] at he
    exact List.filter_subset' _ (List.filter_subset' _ he)

/-- The distraction scaling factor `1 + pct/100` is non-negative whenever all
stored durations are non-negative (it equals `avg_with / avg_without` when the
distraction-free average is positive, and 1 otherwise). -/
theorem distraction_factor_nonneg (s : Store) (wt : Option String)
    (hd : ∀ e ∈ s.entries, ∀ dv : ℤ, e.duration_minutes = some dv → 0 ≤ dv) :
    0 ≤ 1 + (calculate_distraction_impact s wt).average_distraction_overhead_percentage / 100 := by
  have hw : ∀ e ∈ (impactEntries s wt).filter (fun e => !e.distractions.isEmpty),
      ∀ dv : ℤ, e.duration_minutes = some dv → 0 ≤ dv :=
    fun e he => hd e (impactEntries_subset s wt e (List.filter_subset' _ he))
  have haw := avgDuration_nonneg _ hw
  dsimp only [calculate_distraction_impact]
  by_cases h : 0 < avgDuration ((impactEntries s wt).filter (fun e => e.distractions.isEmpty))
  · rw [if_pos h]
    have hne : avgDuration ((impactEntries s wt).filter (fun e => e.distractions.isEmpty)) ≠ 0 :=
      ne_of_gt h
    have heq : 1 + (avgDuration ((impactEntries s wt).filter (fun e => !e.distractions.isEmpty)) -
        avgDuration ((impactEntries s wt).filter (fun e => e.distractions.isEmpty))) /
          avgDuration ((impactEntries s wt).filter (fun e => e.distractions.isEmpty)) * 100 / 100 =
        avgDuration ((impactEntries s wt).filter (fun e => !e.distractions.isEmpty)) /
          avgDuration ((impactEntries s wt).filter (fun e => e.distractions.isEmpty)) := by
      field_simp
      ring
    rw [heq]
    exact div_nonneg haw (le_of_lt h)
  · rw [if_neg h]
    norm_num

/-- C4 (amended): every estimate result has `confidence_range =
(min_estimate, max_estimate)` and a non-negative `min_estimate` (given
non-negative stored durations); for `generate_estimate` and
`generate_collaboration_adjusted_estimate` additionally
`min_estimate = max(0, mean - std_dev)` and `max = mean + std_dev` hold
exactly, while the distraction- and experience-adjusted variants scale the
base bounds and in general break those two equations. -/
theorem C4_estimate_bounds (sq : ℚ → ℚ) (s : Store) (desc wt : String)
    (kr pr : List String)
    (hd : ∀ e ∈ s.entries, ∀ dv : ℤ, e.duration_minutes = some dv → 0 ≤ dv) :
    (∀ r, generate_estimate sq s desc wt kr = some r →
      r.min_estimate = max 0 (r.mean_minutes - r.std_dev) ∧
      r.max_estimate = r.mean_minutes + r.std_dev ∧
      r.confidence_range = (r.min_estimate, r.max_estimate) ∧
      0 ≤ r.min_estimate) ∧
    (∀ r, generate_collaboration_adjusted_estimate sq s desc wt pr kr = some r →
      r.min_estimate = max 0 (r.mean_minutes - r.std_dev) ∧
      r.max_estimate = r.mean_minutes + r.std_dev ∧
      r.confidence_range = (r.min_estimate, r.max_estimate) ∧
      0 ≤ r.min_estimate) ∧
    (∀ r, generate_estimate_with_distraction_overhead sq s desc wt kr = some r →
      r.confidence_range = (r.min_estimate, r.max_estimate) ∧
      0 ≤ r.min_estimate) ∧
    (∀ r, generate_experience_adjusted_estimate sq s desc wt kr = some r →
      r.confidence_range = (r.min_estimate, r.max_estimate) ∧
      0 ≤ r.min_estimate) := by
  refine ⟨fun r hr => generate_estimate_bounds sq s desc wt kr r hr, ?_, ?_, ?_⟩
  · intro r hr
    unfold generate_collaboration_adjusted_estimate at hr
    rcases hb : generate_estimate sq s desc wt kr with _ | base
    · rw [hb] at hr; exact absurd hr (by simp)
    · rw [hb] at hr
      obtain ⟨b1, b2, b3, b4⟩ := generate_estimate_bounds sq s desc wt kr base hb
      dsimp only at hr
      by_cases hp : pr = []
      · rw [if_pos hp] at hr; injection hr with hr; subst hr; exact ⟨b1, b2, b3, b4⟩
      · rw [if_neg hp] at hr
        by_cases hc : ((s.entries.filter (fun e =>
            e.duration_minutes.isSome && e.work_type == wt &&
            e.people_refs.any (fun p => pr.contains p))).map StoredEntry.toTimeEntry) = []
        · rw [if_pos hc] at hr; injection hr with hr; subst hr; exact ⟨b1, b2, b3, b4⟩
        · rw [if_neg hc] at hr
          by_cases hm : 0 < (calculate_statistics ((s.entries.filter (fun e =>
              e.duration_minutes.isSome && e.work_type == wt &&
              e.people_refs.any (fun p => pr.contains p))).map StoredEntry.toTimeEntry)).1
          · rw [if_pos hm] at hr; injection hr with hr; subst hr
            exact ⟨rfl, rfl, rfl, le_max_left 0 _⟩
          · rw [if_neg hm] at hr; injection hr with hr; subst hr; exact ⟨b1, b2, b3, b4⟩
  · intro r hr
    unfold generate_estimate_with_distraction_overhead at hr
    rcases hb : generate_estimate sq s desc wt kr with _ | base
    · rw [hb] at hr; exact absurd hr (by simp)
    · rw [hb] at hr
      obtain ⟨b1, b2, b3, b4⟩ := generate_estimate_bounds sq s desc wt kr base hb
      dsimp only at hr
      by_cases hdist : 0 < (calculate_distraction_impact s (some wt)).entries_with_distractions
      · rw [if_pos hdist] at hr; injection hr with hr; subst hr
        refine ⟨rfl, ?_⟩
        exact mul_nonneg b4 (distraction_factor_nonneg s (some wt) hd)
      · rw [if_neg hdist] at hr; injection hr with hr; subst hr; exact ⟨b3, b4⟩
  · intro r hr
    unfold generate_experience_adjusted_estimate at hr
    rcases hb : generate_estimate sq s desc wt kr with _ | base
    · rw [hb] at hr; exact absurd hr (by simp)
    · rw [hb] at hr
      obtain ⟨b1, b2, b3, b4⟩ := generate_estimate_bounds sq s desc wt kr base hb
      dsimp only at hr
      by_cases hk : kr = []
      · rw [if_pos hk] at hr; injection hr with hr; subst hr; exact ⟨b3, b4⟩
      · rw [if_neg hk] at hr; injection hr with hr; subst hr
        refine ⟨rfl, ?_⟩
        exact mul_nonneg b4 (le_of_lt (experience_tier_pos _))

/-- The two projected fixture entries. -/
def t1 : TimeEntry := (mkCompleted "e1" "technical" ["k"] 10).toTimeEntry

def t2 : TimeEntry := (mkCompleted "e2" "technical" ["k"] 20).toTimeEntry

/-- `math.sqrt 25 = 5` holds for the exact model as well. -/
theorem sqrtE_25 : sqrtE 25 = 5 := by
  unfold sqrtE
  norm_num
  rw [show Int.toNat 25 = 5 * 5 from rfl, Nat.sqrt_eq]
  norm_num

/-- The base estimate on the fixture store: mean 15, variance 25, std-dev 5,
range [10, 20]. -/
theorem c4_base_estimate :
    generate_estimate sqrtE c4Store "task" "technical" ["k"] =
      some { mean_minutes := 15, variance := 25, std_dev := 5, min_estimate := 10,
             max_estimate := 20, confidence_range := (10, 20),
             similar_work_count := 2, similar_work_ids := ["e1", "e2"],
             explanation :=
               build_estimate_explanation [t1, t2] 15 5 "technical" ["k"] } := by
  have hfs : find_similar_work c4Store "task" "technical" ["k"] = [t1, t2] := by
    simp [find_similar_work, c4Store, mkCompleted, t1, t2, List.filter_cons]
  have hstat : calculate_statistics [t1, t2] = (15, 25) := by
    norm_num [calculate_statistics, t1, t2, mkCompleted, StoredEntry.toTimeEntry,
      List.filterMap_cons]
    rw [if_neg (by simp), if_neg (by simp)]
  unfold generate_estimate
  rw [hfs, if_neg (by simp), hstat]
  dsimp only
  rw [sqrtE_25]
  norm_num [t1, t2, mkCompleted, StoredEntry.toTimeEntry]

/-- C4 counterexample: on the fixture store the experience-adjusted estimate
has mean 18, std-dev 5, min 12 and max 24, violating both
`min = max(0, mean - std_dev)` (which would be 13) and
`max = mean + std_dev` (which would be 23); the supplied square root is
honest at the only point it is evaluated (`sqrtE 25 = 5`, `5² = 25`). -/
theorem C4_counterexample :
    ((generate_experience_adjusted_estimate sqrtE c4Store "task" "technical" ["k"]).map
        (fun r => (r.mean_minutes, r.variance, r.std_dev, r.min_estimate,
          r.max_estimate))) = some (18, 25, 5, 12, 24) ∧
    max 0 ((18 : ℚ) - 5) = 13 ∧ (12 : ℚ) ≠ 13 ∧
    (18 : ℚ) + 5 = 23 ∧ (24 : ℚ) ≠ 23 ∧
    sqrtE 25 = 5 ∧ (5 : ℚ) ^ 2 = 25 ∧ (0 : ℚ) ≤ 5 := by
  refine ⟨?_, by norm_num, by norm_num, by norm_num, by norm_num,
    sqrtE_25, by norm_num, by norm_num⟩
  have hexp : total_experience_minutes c4Store ["k"] = 30 := by
    norm_num [total_experience_minutes, get_knowledge_time_investment,
      get_entries_by_knowledge, c4Store, mkCompleted, StoredEntry.toTimeEntry,
      List.filter_cons, List.filterMap_cons]
    simp
  unfold generate_experience_adjusted_estimate
  rw [c4_base_estimate]
  dsimp only
  rw [if_neg (by simp), hexp]
  norm_num [experience_tier]

/-- Witness for C4: the invariants evaluated on the fixture store. -/
theorem C4_estimate_bounds_witness :
    ∃ r, generate_estimate sqrtE c4Store "task" "technical" ["k"] = some r ∧
      r.min_estimate = max 0 (r.mean_minutes - r.std_dev) ∧
      r.max_estimate = r.mean_minutes + r.std_dev ∧
      r.confidence_range = (r.min_estimate, r.max_estimate) ∧
      0 ≤ r.min_estimate := by
  have hd : ∀ e ∈ c4Store.entries, ∀ dv : ℤ, e.duration_minutes = some dv → 0 ≤ dv := by
    intro e he dv hdm
    simp only [c4Store, mkCompleted, List.mem_cons, List.not_mem_nil, or_false] at he
    rcases he with rfl | rfl <;> simp_all <;> omega
  refine ⟨_, c4_base_estimate, ?_⟩
  exact (C4_estimate_bounds sqrtE c4Store "task" "technical" ["k"] [] hd).1 _
    c4_base_estimate

/-! ## C2: breakdown gating -/

/-- The union of the four phase-keyword lists that gate the "technical"
chunk generators. -/
def techPhaseKeywords : List String :=
  ["design", "architecture", "plan", "spec"] ++
    ["implement", "build", "create", "develop", "code"] ++
    ["test", "verify", "validate"] ++ ["document", "doc", "write"]

/-- Containing no phase keyword is the same as failing all four gate lists. -/
theorem allKw_iff (dl : String) :
    (∀ k ∈ techPhaseKeywords, strContains dl k = false) ↔
      (containsAnyKw dl ["design", "architecture", "plan", "spec"] = false ∧
       containsAnyKw dl ["implement", "build", "create", "develop", "code"] = false ∧
       containsAnyKw dl ["test", "verify", "validate"] = false ∧
       containsAnyKw dl ["document", "doc", "write"] = false) := by
  constructor
  · intro h
    refine ⟨?_, ?_, ?_, ?_⟩ <;>
      · simp only [containsAnyKw, List.any_eq_false]
        intro k hk
        exact Bool.eq_false_iff.mp (h k (by
          simp only [techPhaseKeywords, List.mem_append]
          tauto))
  · rintro ⟨h1, h2, h3, h4⟩ k hk
    simp only [containsAnyKw, List.any_eq_false] at h1 h2 h3 h4
    simp only [techPhaseKeywords, List.mem_append] at hk
    rcases hk with ((hk | hk) | hk) | hk
    exacts [Bool.eq_false_iff.mpr (h1 k hk), Bool.eq_false_iff.mpr (h2 k hk),
      Bool.eq_false_iff.mpr (h3 k hk), Bool.eq_false_iff.mpr (h4 k hk)]

/-- The writing/meeting/generic generators always emit chunks. -/
theorem generate_chunks_ne_nil_of_not_technical (s : Store) (d wt : String)
    (kr : List String) (lvl : String) (h : ¬ wt = "technical") :
    generate_chunks_by_type s d wt kr lvl ≠ [] := by
  unfold generate_chunks_by_type
  rw [if_neg h]
  by_cases h2 : wt = "writing"
  · rw [if_pos h2]; simp
  · rw [if_neg h2]
    by_cases h3 : wt = "meeting"
    · rw [if_pos h3]; simp
    · rw [if_neg h3]
      by_cases h4 : lvl = "high" <;> simp [h4]

/-- The technical generator emits no chunk exactly when the description
contains none of the phase keywords and the complexity is not high. -/
theorem generate_chunks_technical_eq_nil_iff (s : Store) (d : String)
    (kr : List String) (lvl : String) :
    generate_chunks_by_type s d "technical" kr lvl = [] ↔
      (¬ lvl = "high" ∧ ∀ k ∈ techPhaseKeywords, strContains (pyLower d) k = false) := by
  rw [allKw_iff]
  unfold generate_chunks_by_type
  rw [if_pos rfl]
  by_cases h1 : containsAnyKw (pyLower d) ["design", "architecture", "plan", "spec"] <;>
    by_cases h2 : containsAnyKw (pyLower d) ["implement", "build", "create", "develop", "code"] <;>
      by_cases h3 : containsAnyKw (pyLower d) ["test", "verify", "validate"] <;>
        by_cases h4 : containsAnyKw (pyLower d) ["document", "doc", "write"] <;>
          by_cases h5 : lvl = "high" <;>
            simp [h1, h2, h3, h4, h5]

/-- C2 (amended): `suggest_breakdown` returns null iff the complexity level is
"low", or the work type is "technical", the level is not "high" and the
description mentions none of the phase keywords (in which case the technical
generator emits no chunks and the function also returns null).  For every
other work type, medium or high complexity always yields a breakdown. -/
theorem C2_breakdown_gating (s : Store) (d wt : String) (kr : List String)
    (now : ℚ) (bid : String) :
    suggest_breakdown s d wt kr now bid = none ↔
      ((analyze_complexity d).complexity_level = "low" ∨
       (wt = "technical" ∧ ¬ (analyze_complexity d).complexity_level = "high" ∧
        ∀ k ∈ techPhaseKeywords, strContains (pyLower d) k = false)) := by
  unfold suggest_breakdown
  by_cases hlow : (analyze_complexity d).complexity_level = "low"
  · simp [hlow]
  · rw [if_neg hlow]
    by_cases hwt : wt = "technical"
    · subst hwt
      by_cases hch : generate_chunks_by_type s d "technical" kr
          (analyze_complexity d).complexity_level = []
      · rw [if_pos hch]
        have h2 := (generate_chunks_technical_eq_nil_iff s d kr
          (analyze_complexity d).complexity_level).1 hch
        exact iff_of_true rfl (Or.inr ⟨rfl, h2.1, h2.2⟩)
      · rw [if_neg hch]
        have h2 := (generate_chunks_technical_eq_nil_iff s d kr
          (analyze_complexity d).complexity_level).not.1 hch
        simp only [not_and, not_not, not_forall] at h2
        constructor
        · intro h; exact absurd h (by simp)
        · intro h
          rcases h with h | ⟨_, hnh, hall⟩
          · exact absurd h hlow
          · exact absurd (h2 hnh) (by
              push_neg
              intro k hk
              simp [hall k hk])
    · have hne := generate_chunks_ne_nil_of_not_technical s d wt kr
        (analyze_complexity d).complexity_level hwt
      rw [if_neg hne]
      simp [hlow, hwt]

/-- A medium-complexity description (117 characters, two conjunctions) with no
technical phase keyword. -/
def c2desc : String :=
  "organize the morning sessions and then arrange follow up meetings for the whole team with extra time for lunch breaks"

set_option maxRecDepth 100000 in
/-- C2 counterexample: the description has complexity level "medium", yet
`suggest_breakdown` with work type "technical" returns null, so a medium
complexity level does not guarantee a `WorkBreakdown`. -/
theorem C2_counterexample :
    (analyze_complexity c2desc).complexity_level = "medium" ∧
    suggest_breakdown emptyStore c2desc "technical" [] 0 "b1" = none := by
  constructor
  · decide
  · decide

/-! ## C10: linking time entries to knowledge -/

/-- The update `link_time_to_knowledge` applies to the matched entry. -/
def linkUpdate (e : StoredEntry) (knowledge_refs : List String) : StoredEntry :=
  { e with knowledge_refs := (e.knowledge_refs ++ knowledge_refs).dedup }

/-- When no entry matches, the scan returns `false` and the unchanged list. -/
theorem link_knowledgeEntries_not_found (w : String) (kr : List String)
    (l : List StoredEntry) (h : ∀ e ∈ l, e.id ≠ w) :
    link_knowledgeEntries w kr l = (false, l) := by
  induction l with
  | nil => rfl
  | cons e rest ih =>
    simp only [link_knowledgeEntries, if_neg (h e (List.mem_cons_self e rest)),
      ih (fun x hx => h x (List.mem_cons_of_mem e hx))]

/-- The scan updates exactly the first entry whose id matches. -/
theorem link_knowledgeEntries_found (pre post : List StoredEntry)
    (en : StoredEntry) (kr : List String) (h : ∀ e ∈ pre, e.id ≠ en.id) :
    link_knowledgeEntries en.id kr (pre ++ en :: post) =
      (true, pre ++ linkUpdate en kr :: post) := by
  induction pre with
  | nil => simp [link_knowledgeEntries, linkUpdate]
  | cons e rest ih =>
    simp only [List.cons_append, link_knowledgeEntries,
      if_neg (h e (List.mem_cons_self e rest))]
    rw [show rest.append (en :: post) = rest ++ en :: post from rfl,
      ih (fun x hx => h x (List.mem_cons_of_mem e hx))]

/-- `(l ++ kr).dedup` realizes the set union of `l` and `kr`. -/
theorem dedup_append_toFinset (l kr : List String) :
    ((l ++ kr).dedup).toFinset = l.toFinset ∪ kr.toFinset := by
  ext x
  simp [List.mem_dedup]

/-- C10: linking refs to a stored entry id returns true and replaces the
entry's knowledge_refs by the duplicate-free set union with the new refs,
leaving all other fields, all other entries and the breakdowns untouched; a
second identical call changes nothing about that set; an unknown id returns
false with the store unchanged. -/
theorem C10_link_time_to_knowledge :
    (∀ (s : Store) (w : String) (kr : List String),
      (∀ e ∈ s.entries, e.id ≠ w) →
      link_time_to_knowledge s w kr = (false, s)) ∧
    (∀ (pre post : List StoredEntry) (bds : List WorkBreakdown)
       (en : StoredEntry) (kr : List String),
      (∀ e ∈ pre, e.id ≠ en.id) →
      link_time_to_knowledge ⟨pre ++ en :: post, bds⟩ en.id kr =
        (true, ⟨pre ++ linkUpdate en kr :: post, bds⟩) ∧
      (linkUpdate en kr).knowledge_refs.toFinset =
        en.knowledge_refs.toFinset ∪ kr.toFinset ∧
      (linkUpdate en kr).knowledge_refs.Nodup ∧
      (linkUpdate en kr).id = en.id ∧
      (linkUpdate en kr).toTimeEntry = { en.toTimeEntry with
        knowledge_refs := (linkUpdate en kr).knowledge_refs } ∧
      link_time_to_knowledge ⟨pre ++ linkUpdate en kr :: post, bds⟩ en.id kr =
        (true, ⟨pre ++ linkUpdate (linkUpdate en kr) kr :: post, bds⟩) ∧
      (linkUpdate (linkUpdate en kr) kr).knowledge_refs.toFinset =
        (linkUpdate en kr).knowledge_refs.toFinset) := by
  constructor
  · intro s w kr h
    unfold link_time_to_knowledge
    rw [link_knowledgeEntries_not_found w kr s.entries h]
  · intro pre post bds en kr h
    refine ⟨?_, ?_, ?_, rfl, rfl, ?_, ?_⟩
    · unfold link_time_to_knowledge
      rw [link_knowledgeEntries_found pre post en kr h]
    · exact dedup_append_toFinset en.knowledge_refs kr
    · exact List.nodup_dedup _
    · unfold link_time_to_knowledge
      have h2 : link_knowledgeEntries (linkUpdate en kr).id kr
          (pre ++ linkUpdate en kr :: post) =
          (true, pre ++ linkUpdate (linkUpdate en kr) kr :: post) :=
        link_knowledgeEntries_found pre post (linkUpdate en kr) kr
          (fun x hx => h x hx)
      rw [show (en.id : String) = (linkUpdate en kr).id from rfl, h2]
    · simp only [linkUpdate, dedup_append_toFinset]
      rw [Finset.union_assoc, Finset.union_self]

/-- Witness for C10 on a concrete store: a known id and an unknown id. -/
theorem C10_link_time_to_knowledge_witness :
    link_time_to_knowledge emptyStore "zzz" ["p"] = (false, emptyStore) ∧
    link_time_to_knowledge
        ⟨[mkCompleted "a" "t" ["x", "y"] 5], []⟩ "a" ["y", "z"] =
      (true, ⟨[linkUpdate (mkCompleted "a" "t" ["x", "y"] 5) ["y", "z"]], []⟩) ∧
    (linkUpdate (mkCompleted "a" "t" ["x", "y"] 5) ["y", "z"]).knowledge_refs.toFinset =
      (["x", "y"] : List String).toFinset ∪ (["y", "z"] : List String).toFinset := by
  refine ⟨?_, ?_, ?_⟩
  · exact C10_link_time_to_knowledge.1 emptyStore "zzz" ["p"] (by simp [emptyStore])
  · have h := (C10_link_time_to_knowledge.2 [] []
      [] (mkCompleted "a" "t" ["x", "y"] 5) ["y", "z"] (by simp)).1
    simpa using h
  · have h := (C10_link_time_to_knowledge.2 [] []
      [] (mkCompleted "a" "t" ["x", "y"] 5) ["y", "z"] (by simp)).2.1
    simpa [mkCompleted] using h

/-! ## C3: exception-freedom of the public operations -/

/-- The first fixture entry: "task a", technical, 30 minutes (0 → 1800 s). -/
def c3e1 : StoredEntry :=
  { id := "w1", start_time := some 0, end_time := some 1800,
    duration_minutes := some 30, work_description := "task a",
    work_type := "technical", knowledge_refs := [], people_refs := [],
    distractions := [], completion_percentage := none, notes := "",
    breakdown_id := none, chunk_id := none, estimated_minutes := none }

/-- The second fixture entry: "task b", technical, closed the same instant it
was started (duration 0). -/
def c3e2 : StoredEntry :=
  { id := "w2", start_time := some 1800, end_time := some 1800,
    duration_minutes := some 0, work_description := "task b",
    work_type := "technical", knowledge_refs := [], people_refs := [],
    distractions := [], completion_percentage := none, notes := "",
    breakdown_id := none, chunk_id := none, estimated_minutes := none }

/-- The log after two start/end cycles: durations 30 and 0. -/
def c3s4 : Store := { entries := [c3e1, c3e2], breakdowns := [] }

/-- A one-chunk breakdown to accept. -/
def bd1 : WorkBreakdown :=
  { original_work := "w", estimated_total := 60,
    chunks := [{ id := "chunk_1", description := "Phase 1: w",
                 estimated_minutes := 60, work_type := "general",
                 knowledge_refs := [], dependencies := [] }],
    breakdown_id := "b1", created_at := 0, completed_chunks := [] }

/-- The store holding one planned (never started) breakdown entry. -/
def c3s5 : Store := (accept_breakdown emptyStore bd1 ["p1"]).2

/-- Closing "w1" at second 1800 produces exactly `c3e1`. -/
theorem c3_end1 :
    end_work (start_work emptyStore "task a" "technical" [] [] 0 "w1").2
      "w1" "" none 1800 = some (some c3e1.toTimeEntry, { entries := [c3e1], breakdowns := [] }) := by
  have hupd : endUpdate (startEntry "task a" "technical" [] [] 0 "w1") 1800 0 "" none = c3e1 := by
    simp only [endUpdate, startEntry, c3e1]
    norm_num [pyTrunc]
  have h := end_workEntries_append_startEntry 1800 "w1" "" "task a" "technical"
    none [] [] 0 [] (by simp)
  simp only [List.nil_append] at h
  simp only [start_work, emptyStore, end_work, List.nil_append, h, hupd]

/-- Closing "w2" at second 1800 (its own start instant) appends `c3e2` with
duration 0. -/
theorem c3_end2 :
    end_work (start_work { entries := [c3e1], breakdowns := [] }
        "task b" "technical" [] [] 1800 "w2").2 "w2" "" none 1800 =
      some (some c3e2.toTimeEntry, c3s4) := by
  have hupd : endUpdate (startEntry "task b" "technical" [] [] 1800 "w2") 1800 1800 "" none = c3e2 := by
    simp only [endUpdate, startEntry, c3e2]
    norm_num [pyTrunc]
  have h := end_workEntries_append_startEntry 1800 "w2" "" "task b" "technical"
    none [] [] 1800 [c3e1] (by simp [c3e1])
  simp only [start_work, end_work, h, hupd, c3s4]
  rfl

/-- The two-cycle log is reachable through the public operations. -/
theorem c3s4_reachable : Reachable c3s4 := by
  have h1 : Reachable (start_work emptyStore "task a" "technical" [] [] 0 "w1").2 :=
    Reachable.startw emptyStore "task a" "technical" [] [] 0 "w1"
      (Reachable.init : Reachable emptyStore)
  have h2 : Reachable ({ entries := [c3e1], breakdowns := [] } : Store) :=
    Reachable.endw _ "w1" "" none 1800 (some c3e1.toTimeEntry) _ h1 c3_end1
  have h3 : Reachable (start_work { entries := [c3e1], breakdowns := [] }
      "task b" "technical" [] [] 1800 "w2").2 :=
    Reachable.startw _ "task b" "technical" [] [] 1800 "w2" h2
  exact Reachable.endw _ "w2" "" none 1800 (some c3e2.toTimeEntry) _ h3 c3_end2

/-- The planned-entry store is reachable (accepting a breakdown). -/
theorem c3s5_reachable : Reachable c3s5 :=
  Reachable.acceptb emptyStore bd1 ["p1"] (Reachable.init : Reachable emptyStore)

/-- C3 fails on the code: on the reachable two-cycle log the accuracy
backtest divides by the zero actual duration (`ZeroDivisionError`), and on
the reachable planned-entry store `end_work` calls
`datetime.fromisoformat(None)` (`TypeError`); both modelled as `none`. -/
theorem C3_operations_can_raise :
    (Reachable c3s4 ∧ analyze_estimation_accuracy c3s4 20 = none) ∧
    (Reachable c3s5 ∧ end_work c3s5 "p1" "" none 0 = none) := by
  refine ⟨⟨c3s4_reachable, ?_⟩, ⟨c3s5_reachable, ?_⟩⟩
  · norm_num [analyze_estimation_accuracy, accuracyFold, accuracyStep,
      calculate_statistics, c3s4, c3e1, c3e2, StoredEntry.toTimeEntry,
      List.filter_cons, List.filterMap_cons]
  · simp [c3s5, accept_breakdown, bd1, emptyStore, end_work, end_workEntries]

end WorkOS
